import Mathlib

/-!
Shallow embedding of the tool-search catalog service
(src/server/src/tools_search.py) and verification of its specification.

Conventions of the embedding:
* Python floats are modelled by `Rat` (exact arithmetic; the claims under
  verification only exercise exactly representable values).
* The external vector index, embedding service and random sampler are
  modelled as explicit function parameters; network calls issued by an
  operation are recorded in an `Event` trace so that "no call is issued"
  and "the write of chunk k happened" are statable.
* A Python function that can raise `ToolSearchError` is modelled as
  returning `Except Err α` (paired with its event trace where relevant).
* Serialized JSON strings are modelled by their parse: `JsonStr.good j`
  stands for a non-empty string that `json.loads` parses to the JSON value
  `j` (in particular the output of `json.dumps j`), `JsonStr.bad` for a
  non-empty string on which `json.loads` raises, `JsonStr.empty` for `""`.
  This quotients strings by exactly the information the source uses.
-/

set_option maxRecDepth 40000

namespace ToolsSearch

/-- The `ErrorCode` enum of the source (error taxonomy of section 7). -/
inductive ErrorCode where
  | UNKNOWN_ERROR
  | INITIALIZATION_ERROR
  | CONFIGURATION_ERROR
  | DEPENDENCY_ERROR
  | VALIDATION_ERROR
  | EMBEDDING_ERROR
  | PINECONE_ERROR
  | UPSERT_ERROR
  | QUERY_ERROR
  | DELETE_ERROR
  | FETCH_ERROR
  | FILE_LOAD_ERROR
  | TOOLKIT_UPSERT_ERROR
  | TOOLKIT_QUERY_ERROR
  | TOOLKIT_DELETE_ERROR
  | BATCH_UPSERT_ERROR
  | BATCH_DELETE_ERROR
  | STATS_ERROR
deriving DecidableEq, Repr

/-- A raised `ToolSearchError`: message plus classified error code. -/
structure Err where
  message : String
  error_code : ErrorCode
deriving DecidableEq, Repr

/-- The `ToolParameter` pydantic model. -/
structure ToolParameter where
  name : String
  type : String
  required : Bool
  description : Option String
deriving DecidableEq, Repr

/-- The `Tool` pydantic model (field order as in the source). -/
structure Tool where
  action_id : Int
  toolkit_id : Int
  tool_name : String
  description : String
  parameters : List ToolParameter
  toolkit : String
deriving DecidableEq, Repr

/-- The `Toolkit` pydantic model. -/
structure Toolkit where
  toolkit_id : Int
  name : String
  description : String
  tools : List Tool
deriving DecidableEq, Repr

/-- JSON values, used to model the serialized `parameters` metadata field. -/
inductive Json where
  | null
  | jbool (b : Bool)
  | jint (n : Int)
  | jstr (s : String)
  | jarr (elems : List Json)
  | jobj (fields : List (String × Json))

/-- A Python string holding (or failing to hold) JSON, modelled by its parse
outcome; see the header comment. -/
inductive JsonStr where
  | good (j : Json)
  | bad
  | empty

/-- The possible runtime values of the `parameters_str` argument of
`parse_tool_parameters` (`Union[str, List[Dict], None]`; `None` is modelled
by wrapping in `Option` at the call sites). -/
inductive ParamsVal where
  | pstr (s : JsonStr)
  | plist (elems : List Json)

/-- The dict produced by `param.model_dump()` followed by `json.dumps`,
as a JSON object (pydantic field order; a `None` description becomes
JSON `null`). -/
def paramToJson (p : ToolParameter) : Json :=
  .jobj [("name", .jstr p.name), ("type", .jstr p.type),
         ("required", .jbool p.required),
         ("description", match p.description with
            | some s => .jstr s
            | none => .null)]

/-- Key lookup in a JSON object (JSON objects produced by `json.loads`
have no duplicate keys, so first-match lookup is faithful). -/
def jlookup (fields : List (String × Json)) (k : String) : Option Json :=
  (fields.find? (fun f => f.1 == k)).map (fun f => f.2)

/-- One `ToolParameter(**param_dict)` call: `some p` models a successful
construction, `none` models the raised `TypeError`/`ValidationError`
(pydantic rejects a non-dict argument, a missing or wrongly-typed
required field; extra keys are ignored per the pydantic default). -/
def jsonToParam (j : Json) : Option ToolParameter :=
  match j with
  | .jobj fs =>
    match jlookup fs "name", jlookup fs "type", jlookup fs "required" with
    | some (.jstr n), some (.jstr t), some (.jbool r) =>
      match jlookup fs "description" with
      | none => some ⟨n, t, r, none⟩
      | some .null => some ⟨n, t, r, none⟩
      | some (.jstr d) => some ⟨n, t, r, some d⟩
      | some _ => none
    | _, _, _ => none
  | _ => none

/-- Python iteration over the value bound to `params_data`: arrays yield
their elements, strings their one-character substrings, dicts their keys;
any other value raises `TypeError` at the `for` statement (`none`). -/
def iterEntries : Json → Option (List Json)
  | .jarr xs => some xs
  | .jstr s => some (s.data.map (fun c => .jstr (String.mk [c])))
  | .jobj fs => some (fs.map (fun f => .jstr f.1))
  | _ => none

/-- The `for param_dict in params_data` loop of `parse_tool_parameters`:
appends successfully parsed parameters to `acc`; on the first failing
entry the raised exception is caught by the surrounding handler and the
list accumulated so far is returned. -/
def parseLoop : List Json → List ToolParameter → List ToolParameter
  | [], acc => acc
  | e :: es, acc =>
    match jsonToParam e with
    | some p => parseLoop es (acc ++ [p])
    | none => acc

/-- The `parse_tool_parameters` utility: `none` models Python `None`
(falsy, like `""` and `[]`); a string is parsed as JSON with failures
caught; a list is iterated directly. -/
def parse_tool_parameters : Option ParamsVal → List ToolParameter
  | none => []
  | some (.pstr .empty) => []
  | some (.pstr .bad) => []
  | some (.pstr (.good j)) =>
    match iterEntries j with
    | some es => parseLoop es []
    | none => []
  | some (.plist []) => []
  | some (.plist es) => parseLoop es []

/-- The flat metadata dict attached to a stored vector. Fields are
`Option`-valued because `metadata_to_tool` reads them with
`metadata.get(key, default)`; `build_tool_metadata` always sets all six. -/
structure Metadata where
  action_id : Option Int
  toolkit_id : Option Int
  tool_name : Option String
  description : Option String
  toolkit_name : Option String
  parameters : Option ParamsVal

/-- The `build_tool_metadata` utility (`getattr(tool, 'toolkit_name',
tool.toolkit)` resolves to `tool.toolkit` since `Tool` has no
`toolkit_name` attribute; `parameters` is `json.dumps` of the parameter
dumps, i.e. a good JSON string holding the array). -/
def build_tool_metadata (t : Tool) : Metadata :=
  ⟨some t.action_id, some t.toolkit_id, some t.tool_name, some t.description,
   some t.toolkit, some (.pstr (.good (.jarr (t.parameters.map paramToJson))))⟩

/-- The `metadata_to_tool` utility: defaulting reads plus lenient
parameter decode. -/
def metadata_to_tool (m : Metadata) : Tool :=
  ⟨m.action_id.getD 0, m.toolkit_id.getD 0, m.tool_name.getD "",
   m.description.getD "", parse_tool_parameters m.parameters,
   m.toolkit_name.getD ""⟩

/-- Scalar values usable inside a `$in` membership list. -/
inductive FScalar where
  | s (x : String)
  | i (x : Int)
deriving DecidableEq, Repr

/-- Runtime values found in a caller-supplied filter dict (scalar string
or int, or a homogeneous list of either). -/
inductive FVal where
  | str (x : String)
  | int (x : Int)
  | listStr (xs : List String)
  | listInt (xs : List Int)
deriving DecidableEq, Repr

/-- Python truthiness of a filter value, as tested by
`if value := filters.get(key):`. -/
def FVal.truthy : FVal → Bool
  | .str x => !(x == "")
  | .int x => !(x == 0)
  | .listStr xs => !xs.isEmpty
  | .listInt xs => !xs.isEmpty

/-- The `isinstance(value, list)` test. -/
def FVal.isList : FVal → Bool
  | .listStr _ => true
  | .listInt _ => true
  | _ => false

/-- The `$in` list built from a filter value: the elements for a list,
a singleton for a scalar (`[value]` in the source). -/
def FVal.toScalars : FVal → List FScalar
  | .str x => [.s x]
  | .int x => [.i x]
  | .listStr xs => xs.map .s
  | .listInt xs => xs.map .i

/-- Values of the produced Pinecone filter dict: either a `{"$in": [...]}`
clause or, under the key `"$and"`, a list of single-key sub-dicts. -/
inductive PVal where
  | inOp (vals : List FScalar)
  | andOp (conds : List (String × PVal))

/-- A Pinecone filter dict, as an insertion-ordered association list. -/
abbrev PFilter := List (String × PVal)

/-- `filters.get(key)` on the caller-supplied filter dict. -/
def getFilter (filters : List (String × FVal)) (k : String) : Option FVal :=
  (filters.find? (fun kv => kv.1 == k)).map (fun kv => kv.2)

/-- `key in pinecone_filter` / `pinecone_filter[key]` lookup. -/
def lookupPF (pf : PFilter) (k : String) : Option PVal :=
  (pf.find? (fun kv => kv.1 == k)).map (fun kv => kv.2)

/-- One simple key block of `_build_pinecone_filter`: if the input key is
present and truthy, set `pinecone_filter[outKey] = {"$in": [...]}` (a new
key, hence an append). -/
def stepKey (filters : List (String × FVal)) (inKey outKey : String)
    (pf : PFilter) : PFilter :=
  match getFilter filters inKey with
  | some v => if v.truthy then pf ++ [(outKey, PVal.inOp v.toScalars)] else pf
  | none => pf

/-- One iteration of the `for param in required_params` loop: the first
param adds a `required_params` membership clause; a later param, when a
`required_params` clause is present, REPLACES the whole dict by a `$and`
of that clause with the new one (the nested-reassignment of the source). -/
def requiredParamsStep (pf : PFilter) (param : FScalar) : PFilter :=
  match lookupPF pf "required_params" with
  | none => pf ++ [("required_params", PVal.inOp [param])]
  | some existing =>
      [("$and", PVal.andOp [("required_params", existing),
                            ("required_params", PVal.inOp [param])])]

/-- The `required_params` block of `_build_pinecone_filter`. -/
def stepRequiredParams (filters : List (String × FVal)) (pf : PFilter) :
    PFilter :=
  match getFilter filters "required_params" with
  | some v =>
    if v.truthy then
      if v.isList then v.toScalars.foldl requiredParamsStep pf
      else pf ++ [("required_params", PVal.inOp v.toScalars)]
    else pf
  | none => pf

/-- The `_build_pinecone_filter` method: key blocks in source order
(`tool_name`, `toolkit`→`toolkit_name`, `toolkit_id`, `chain`,
`required_params`); an empty filter dict short-circuits to `{}`. -/
def build_pinecone_filter (filters : List (String × FVal)) : PFilter :=
  if filters.isEmpty then []
  else
    stepRequiredParams filters
      (stepKey filters "chain" "chain"
        (stepKey filters "toolkit_id" "toolkit_id"
          (stepKey filters "toolkit" "toolkit_name"
            (stepKey filters "tool_name" "tool_name" []))))

theorem jsonToParam_paramToJson (p : ToolParameter) :
    jsonToParam (paramToJson p) = some p := by
  cases p with
  | mk n t r d => cases d <;> rfl

theorem parseLoop_map_paramToJson (ps : List ToolParameter)
    (acc : List ToolParameter) :
    parseLoop (ps.map paramToJson) acc = acc ++ ps := by
  induction ps generalizing acc with
  | nil => simp [parseLoop]
  | cons p ps ih =>
    simp only [List.map_cons, parseLoop, jsonToParam_paramToJson, ih]
    simp

/-- C1: FALSE on the code. Claimed: every supported filter key present
contributes its own membership clause, and a multi-element
`required_params` list yields one membership clause per element, conjoined
in input order, without losing the clauses built for the other keys. The
code instead REPLACES the whole filter dict inside the `required_params`
loop: with `{"tool_name": "swap", "required_params": ["a","b"]}` the
`tool_name` clause is dropped, and with
`{"required_params": ["a","b","c","d"]}` the membership clauses for
`"a"` and `"b"` are dropped, leaving only the conjunction over `"c"` and
`"d"`. This theorem evaluates the translator at both failing inputs. -/
theorem c1_filter_translation_loses_clauses :
    build_pinecone_filter
        [("tool_name", FVal.str "swap"), ("required_params", FVal.listStr ["a", "b"])]
      = [("$and", PVal.andOp [("required_params", PVal.inOp [FScalar.s "a"]),
                              ("required_params", PVal.inOp [FScalar.s "b"])])]
  ∧ lookupPF (build_pinecone_filter
        [("tool_name", FVal.str "swap"), ("required_params", FVal.listStr ["a", "b"])])
        "tool_name" = none
  ∧ build_pinecone_filter [("required_params", FVal.listStr ["a", "b", "c", "d"])]
      = [("$and", PVal.andOp [("required_params", PVal.inOp [FScalar.s "c"]),
                              ("required_params", PVal.inOp [FScalar.s "d"])])] :=
  ⟨rfl, rfl, rfl⟩

/-- C2: for every `Tool` `t`, `metadata_to_tool (build_tool_metadata t)`
equals `t` in every field, including the ordered parameter sequence
(the encode side always emits a well-formed `parameters` encoding, so the
round trip is exact); additionally a missing `parameters` value and an
encoding that is not valid JSON each decode to the empty parameter list. -/
theorem c2_metadata_roundtrip :
    (∀ t : Tool, metadata_to_tool (build_tool_metadata t) = t)
  ∧ parse_tool_parameters none = []
  ∧ parse_tool_parameters (some (.pstr .bad)) = [] := by
  refine ⟨fun t => ?_, rfl, rfl⟩
  cases t with
  | mk aid tid tn d ps tk =>
    simp [metadata_to_tool, build_tool_metadata, parse_tool_parameters,
          iterEntries, parseLoop_map_paramToJson]

/-- C5: the decode of a stored `parameters` value never raises (the
embedding is a total function), and a malformed encoding is claimed to
yield an empty parameter list. FALSE on the code for an encoding whose
list holds a valid parameter object followed by an invalid one: the loop
appends parsed parameters before the exception is caught, so the partial
prefix `[{name:"a", ...}]` is returned, not `[]` — contradicting the
source's own comment (parse failure should return the empty list). -/
theorem c5_malformed_parameters_partial_decode :
    parse_tool_parameters
        (some (.pstr (.good (.jarr
          [.jobj [("name", .jstr "a"), ("type", .jstr "string"),
                  ("required", .jbool true)],
           .jobj [("bad", .jint 1)]]))))
      = [⟨"a", "string", true, none⟩]
  ∧ parse_tool_parameters
        (some (.pstr (.good (.jarr
          [.jobj [("name", .jstr "a"), ("type", .jstr "string"),
                  ("required", .jbool true)],
           .jobj [("bad", .jint 1)]]))))
      ≠ [] := by
  refine ⟨rfl, ?_⟩
  intro h
  rw [show parse_tool_parameters
        (some (.pstr (.good (.jarr
          [.jobj [("name", .jstr "a"), ("type", .jstr "string"),
                  ("required", .jbool true)],
           .jobj [("bad", .jint 1)]]))))
      = [⟨"a", "string", true, none⟩] from rfl] at h
  exact List.noConfusion h

/-- Python `round` to an integer: round half to even (banker's rounding),
idealized over exact rationals. -/
def roundHalfEven (q : Rat) : Int :=
  if q - ⌊q⌋ < 1 / 2 then ⌊q⌋
  else if 1 / 2 < q - ⌊q⌋ then ⌊q⌋ + 1
  else if ⌊q⌋ % 2 = 0 then ⌊q⌋ else ⌊q⌋ + 1

theorem roundHalfEven_intCast (n : Int) : roundHalfEven (n : Rat) = n := by
  simp [roundHalfEven, Int.floor_intCast]

/-- Python `round(x, 4)`: round to 4 decimal places. -/
def round4 (q : Rat) : Rat := (roundHalfEven (q * 10000) : Rat) / 10000

/-- The `_convert_distance_to_similarity` method:
`round(max(0.0, min(1.0, (distance + 1.0) / 2.0)), 4)`. -/
def convert_distance_to_similarity (distance : Rat) : Rat :=
  round4 (max 0 (min 1 ((distance + 1) / 2)))

/-- The normalization formula as the spec words it:
`clamp((raw + 1) / 2, 0, 1)` rounded to 4 decimal places (clamp written
lower-bound first). -/
def specNormalizedScore (raw : Rat) : Rat :=
  round4 (min 1 (max 0 ((raw + 1) / 2)))

theorem clamp_comm (x : Rat) : max 0 (min 1 x) = min 1 (max 0 x) := by
  rcases le_total x (0 : Rat) with h | h
  · rw [max_eq_left (min_le_of_right_le h), max_eq_left h,
        min_eq_right (by norm_num : (0 : Rat) ≤ 1)]
  · rw [max_eq_right (le_min (by norm_num) h)]
    rw [max_eq_right h]

/-- C7: score normalization equals the spec formula
`clamp((raw + 1) / 2, 0, 1)` rounded to 4 decimal places; raw `1` maps to
`1`, raw `-1` to `0`, raw `0` to `1/2`; inputs at or beyond the ends of
`[-1, 1]` are clamped to `1` and `0` respectively (hence the output always
lies in `[0, 1]`). -/
theorem round4_one : round4 1 = 1 := by
  rw [round4, show ((1 : Rat) * 10000) = ((10000 : Int) : Rat) by norm_num,
      roundHalfEven_intCast]
  norm_num

theorem round4_zero : round4 0 = 0 := by
  rw [round4, show ((0 : Rat) * 10000) = ((0 : Int) : Rat) by norm_num,
      roundHalfEven_intCast]
  norm_num

theorem round4_half : round4 (1 / 2) = 1 / 2 := by
  rw [round4, show ((1 / 2 : Rat) * 10000) = ((5000 : Int) : Rat) by norm_num,
      roundHalfEven_intCast]
  norm_num

theorem c7_score_normalization :
    (∀ raw : Rat, convert_distance_to_similarity raw = specNormalizedScore raw)
  ∧ convert_distance_to_similarity 1 = 1
  ∧ convert_distance_to_similarity (-1) = 0
  ∧ convert_distance_to_similarity 0 = 1 / 2
  ∧ (∀ raw : Rat, 1 ≤ raw → convert_distance_to_similarity raw = 1)
  ∧ (∀ raw : Rat, raw ≤ -1 → convert_distance_to_similarity raw = 0) := by
  have hone : ∀ raw : Rat, 1 ≤ raw → convert_distance_to_similarity raw = 1 := by
    intro raw h
    unfold convert_distance_to_similarity
    have h1 : (1 : Rat) ≤ (raw + 1) / 2 := by linarith
    rw [min_eq_left h1, max_eq_right (by norm_num : (0 : Rat) ≤ 1)]
    exact round4_one
  have hzero : ∀ raw : Rat, raw ≤ -1 → convert_distance_to_similarity raw = 0 := by
    intro raw h
    unfold convert_distance_to_similarity
    have h1 : (raw + 1) / 2 ≤ (0 : Rat) := by linarith
    rw [max_eq_left (min_le_of_right_le h1)]
    exact round4_zero
  refine ⟨fun raw => ?_, hone 1 le_rfl, hzero (-1) le_rfl, ?_, hone, hzero⟩
  · unfold convert_distance_to_similarity specNormalizedScore
    rw [clamp_comm]
  · unfold convert_distance_to_similarity
    rw [show ((0 : Rat) + 1) / 2 = 1 / 2 by norm_num,
        min_eq_right (by norm_num : (1 / 2 : Rat) ≤ 1),
        max_eq_right (by norm_num : (0 : Rat) ≤ 1 / 2)]
    exact round4_half

/-- Witness for C7: the clamping clauses evaluated at the concrete
out-of-range raw scores `3` and `-2`. -/
theorem c7_score_normalization_witness :
    convert_distance_to_similarity 3 = 1
  ∧ convert_distance_to_similarity (-2) = 0 :=
  ⟨c7_score_normalization.2.2.2.2.1 3 (by norm_num),
   c7_score_normalization.2.2.2.2.2 (-2) (by norm_num)⟩

/-- Network calls issued by an operation (the observable effect trace). -/
inductive Event where
  | embedOne (text : String)
  | embedBatch (texts : List String)
  | indexQuery (topK : Nat) (filt : Option PFilter)
  | indexWrite (ids : List String) (ok : Bool)
  | indexDelete (ids : List String)
  | indexFetch (ids : List String)
  | statsCall

/-- Does the character list `t` start with `p`? -/
def startsWithL : List Char → List Char → Bool
  | _, [] => true
  | [], _ :: _ => false
  | c :: cs, p :: ps => c == p && startsWithL cs ps

/-- Does the character list `t` contain `p` as a contiguous run? -/
def containsL : List Char → List Char → Bool
  | [], p => startsWithL [] p
  | t :: ts, p => startsWithL (t :: ts) p || containsL ts p

/-- Python's `pat in s` substring test. -/
def strContainsSub (s pat : String) : Bool := containsL s.data pat.data

/-- ASCII lowercase of one character (`str.lower()` restricted to ASCII,
which covers every substring the error classification tests for). -/
def lowerChar (c : Char) : Char :=
  if 65 ≤ c.toNat ∧ c.toNat ≤ 90 then Char.ofNat (c.toNat + 32) else c

/-- ASCII `str.lower()`. -/
def lowerStr (s : String) : String := String.mk (s.data.map lowerChar)

/-- Error classification of `upsert_tool`: inspect the lowercased failure
text for embedding- vs pinecone-related substrings. -/
def classifySingleUpsert (m : String) : Err :=
  if strContainsSub (lowerStr m) "embedding" then
    ⟨"Failed to generate embedding: " ++ m, ErrorCode.EMBEDDING_ERROR⟩
  else if strContainsSub (lowerStr m) "pinecone" then
    ⟨"Pinecone operation failed: " ++ m, ErrorCode.PINECONE_ERROR⟩
  else ⟨"Failed to upsert tool: " ++ m, ErrorCode.UPSERT_ERROR⟩

/-- Error classification of `upsert_tools` (the batch path). -/
def classifyBatchUpsert (m : String) : Err :=
  if strContainsSub (lowerStr m) "embedding" then
    ⟨"Failed to generate embeddings: " ++ m, ErrorCode.EMBEDDING_ERROR⟩
  else if strContainsSub (lowerStr m) "pinecone" then
    ⟨"Pinecone batch operation failed: " ++ m, ErrorCode.PINECONE_ERROR⟩
  else ⟨"Failed to upsert tools: " ++ m, ErrorCode.BATCH_UPSERT_ERROR⟩

/-- The `_create_embedding_text` method:
`"{toolkit_name} {tool_name} | {description} | params: ..."` with the
comma-joined parameter names, or `"none"` when there are no parameters
(`getattr(tool, 'toolkit_name', tool.toolkit)` resolves to
`tool.toolkit`). -/
def create_embedding_text (t : Tool) : String :=
  let names := t.parameters.map (fun p => p.name)
  let paramStr := if names.isEmpty then "none" else String.intercalate ", " names
  t.toolkit ++ " " ++ t.tool_name ++ " | " ++ t.description ++ " | params: " ++ paramStr

/-- The stored vector id: `str(tool.action_id)`. -/
def vectorId (t : Tool) : String := toString t.action_id

/-- Fuel-driven worker for `chunkList` (structural recursion on the fuel,
which starts at the list length; each step of a positive batch size drops
at least one element, so the fuel never runs out first). -/
def chunkListAux {α : Type} (bs : Nat) : Nat → List α → List (List α)
  | _, [] => []
  | 0, _ :: _ => []
  | fuel + 1, x :: xs =>
    if bs = 0 then []
    else (x :: xs).take bs :: chunkListAux bs fuel ((x :: xs).drop bs)

/-- The `range(0, len(tools), batch_size)` slicing of `upsert_tools`,
as the list of successive chunks (empty when `batch_size` is `0`; that
case is a Python `ValueError` handled at the call site). -/
def chunkList {α : Type} (bs : Nat) (l : List α) : List (List α) :=
  chunkListAux bs l.length l

/-- The chunk loop of `upsert_tools`: per chunk, one batch embedding call
(which may raise), then one batch index write (which may raise); ids are
accumulated across chunks and returned only when every chunk succeeds.
`embedFail`/`writeFail` give the failure message of the external call for
a given chunk index, `none` meaning success. -/
def upsertChunks (embedFail writeFail : Nat → Option String) :
    Nat → List (List Tool) → List String → List Event →
    Except String (List String) × List Event
  | _, [], acc, evs => (.ok acc, evs)
  | k, c :: cs, acc, evs =>
    let texts := c.map create_embedding_text
    match embedFail k with
    | some m => (.error m, evs ++ [.embedBatch texts])
    | none =>
      let ids := c.map vectorId
      match writeFail k with
      | some m => (.error m, evs ++ [.embedBatch texts, .indexWrite ids false])
      | none =>
          upsertChunks embedFail writeFail (k + 1) cs (acc ++ ids)
            (evs ++ [.embedBatch texts, .indexWrite ids true])

/-- The `upsert_tools` method: empty input short-circuits to `[]`; all
tools are validated up front (`action_id > 0`, first offender reported);
then chunks are processed strictly sequentially; a raised low-level
failure is classified, a raised `ToolSearchError` passes through. -/
def upsert_tools (embedFail writeFail : Nat → Option String)
    (tools : List Tool) (batch_size : Nat) :
    Except Err (List String) × List Event :=
  if tools.isEmpty then (.ok [], [])
  else
    match tools.find? (fun t => decide (t.action_id ≤ 0)) with
    | some t =>
        (.error ⟨"Invalid action_id: " ++ toString t.action_id,
                 ErrorCode.VALIDATION_ERROR⟩, [])
    | none =>
      if batch_size = 0 then
        (.error (classifyBatchUpsert "range() arg 3 must not be zero"), [])
      else
        match upsertChunks embedFail writeFail 0 (chunkList batch_size tools) [] [] with
        | (.ok ids, evs) => (.ok ids, evs)
        | (.error m, evs) => (.error (classifyBatchUpsert m), evs)

/-- The `upsert_tool` method: validate `action_id > 0`, one embedding
call, one single-record write; low-level failures are classified,
`ToolSearchError` passes through unchanged. -/
def upsert_tool (embedFail writeFail : Option String) (t : Tool) :
    Except Err String × List Event :=
  if t.action_id ≤ 0 then
    (.error ⟨"Invalid action_id", ErrorCode.VALIDATION_ERROR⟩, [])
  else
    let text := create_embedding_text t
    match embedFail with
    | some m => (.error (classifySingleUpsert m), [.embedOne text])
    | none =>
      match writeFail with
      | some m =>
          (.error (classifySingleUpsert m),
           [.embedOne text, .indexWrite [vectorId t] false])
      | none =>
          (.ok (vectorId t), [.embedOne text, .indexWrite [vectorId t] true])

/-- The `upsert_toolkit` method: reject an empty tool list, else delegate
to `upsert_tools` with the default batch size 100. The enclosing
`except Exception` handler has NO `except ToolSearchError: raise` clause,
so every raised error — the validation error included — is re-wrapped into
`TOOLKIT_UPSERT_ERROR`. -/
def upsert_toolkit (embedFail writeFail : Nat → Option String)
    (tk : Toolkit) : Except Err (List String) × List Event :=
  let body :=
    if tk.tools.isEmpty then
      ((.error ⟨"Toolkit must contain at least one tool",
                ErrorCode.VALIDATION_ERROR⟩ : Except Err (List String)),
       ([] : List Event))
    else upsert_tools embedFail writeFail tk.tools 100
  match body with
  | (.ok ids, evs) => (.ok ids, evs)
  | (.error e, evs) =>
      (.error ⟨"Failed to upsert toolkit: " ++ e.message,
               ErrorCode.TOOLKIT_UPSERT_ERROR⟩, evs)

/-- The committed chunk writes of an event trace (writes the index
acknowledged). -/
def committedWrites : List Event → List (List String)
  | [] => []
  | .indexWrite ids true :: es => ids :: committedWrites es
  | _ :: es => committedWrites es

/-- A match returned by the vector index: metadata plus raw similarity
score. -/
structure IndexMatch where
  metadata : Metadata
  score : Rat

/-- The index's query endpoint, as seen by the provider: probe vector,
`top_k`, optional filter → ordered match list. -/
abbrev IndexQueryFn := List Rat → Nat → Option PFilter → List IndexMatch

/-- `np.random.rand(d).tolist()`: a length-`d` probe vector; the sampled
values are abstracted by `sample`, the length is determined by `d`. -/
def npRandomRand (sample : Nat → Rat) (d : Nat) : List Rat :=
  (List.range d).map sample

/-- The `get_toolkit_tools` method: validate `toolkit_id > 0`; read the
namespace vector count from index stats and short-circuit to `[]` at
count zero; otherwise one filtered query with a random probe vector and
`top_k = min(100, vector_count)`, decoding each match's metadata.
`statsCount` is the vector count the stats call reports. -/
def get_toolkit_tools (statsCount : Nat) (sample : Nat → Rat) (dim : Nat)
    (index : IndexQueryFn) (toolkit_id : Int) :
    Except Err (List Tool) × List Event :=
  if toolkit_id ≤ 0 then
    (.error ⟨"Invalid toolkit_id", ErrorCode.VALIDATION_ERROR⟩, [])
  else if statsCount = 0 then (.ok [], [.statsCall])
  else
    let pf := build_pinecone_filter [("toolkit_id", FVal.int toolkit_id)]
    let probe := npRandomRand sample dim
    let k := min 100 statsCount
    let ms := index probe k (some pf)
    (.ok (ms.map (fun m => metadata_to_tool m.metadata)),
     [.statsCall, .indexQuery k (some pf)])

/-- The `delete_tools` method: one batch delete of the stringified ids
(`deleteFail` is the message of a raised low-level failure). -/
def delete_tools (deleteFail : Option String) (action_ids : List Int) :
    Except Err (List String) × List Event :=
  let vids := action_ids.map (fun i => toString i)
  match deleteFail with
  | some m =>
      (.error ⟨"Failed to delete tools: " ++ m, ErrorCode.BATCH_DELETE_ERROR⟩,
       [.indexDelete vids])
  | none => (.ok vids, [.indexDelete vids])

/-- The `delete_toolkit` method: fetch via `get_toolkit_tools`, then one
batch delete; returns the deleted count. As with `upsert_toolkit`, the
handler has no `ToolSearchError` pass-through, so every raised error is
re-wrapped into `TOOLKIT_DELETE_ERROR`. -/
def delete_toolkit (statsCount : Nat) (sample : Nat → Rat) (dim : Nat)
    (index : IndexQueryFn) (deleteFail : Option String) (toolkit_id : Int) :
    Except Err Int × List Event :=
  let g := get_toolkit_tools statsCount sample dim index toolkit_id
  let body : Except Err Int × List Event :=
    match g with
    | (.error e, evs) => (.error e, evs)
    | (.ok tools, evs) =>
      if tools.isEmpty then (.ok 0, evs)
      else
        match delete_tools deleteFail (tools.map (fun t => t.action_id)) with
        | (.error e, evs2) => (.error e, evs ++ evs2)
        | (.ok _, evs2) => (.ok (tools.length : Int), evs ++ evs2)
  match body with
  | (.ok n, evs) => (.ok n, evs)
  | (.error e, evs) =>
      (.error ⟨"Failed to delete toolkit: " ++ e.message,
               ErrorCode.TOOLKIT_DELETE_ERROR⟩, evs)

/-- The `get_tool_by_id` method: validate `action_id > 0`, one fetch by
id, decode the metadata when present (`fetch` maps an id to the stored
metadata, `none` when absent). -/
def get_tool_by_id (fetch : String → Option Metadata) (action_id : Int) :
    Except Err (Option Tool) × List Event :=
  if action_id ≤ 0 then
    (.error ⟨"Invalid action_id", ErrorCode.VALIDATION_ERROR⟩, [])
  else
    let vid := toString action_id
    match fetch vid with
    | some md => (.ok (some (metadata_to_tool md)), [.indexFetch [vid]])
    | none => (.ok none, [.indexFetch [vid]])

/-- The `ToolSearchRequest` pydantic model (its `ge=1, le=50` bound on
`top_k` is enforced by pydantic at construction). -/
structure ToolSearchRequest where
  query : String
  top_k : Nat
  filters : Option (List (String × FVal))

/-- The `ToolSearchResponse` pydantic model. -/
structure ToolSearchResponse where
  tool_name : String
  action_id : Int
  toolkit_id : Int
  description : String
  parameters : List ToolParameter
  score : Rat

/-- Python truthiness of `request.filters` (`None` or an empty dict is
falsy). -/
def filtersTruthy : Option (List (String × FVal)) → Bool
  | none => false
  | some l => !l.isEmpty

/-- The `_apply_post_filters` method: with a truthy `name_prefix` filter,
keep only matches whose decoded `tool_name` starts with the given string;
order is preserved. (A non-string `name_prefix` value would raise a
`TypeError` in Python; no claim exercises that path.) -/
def apply_post_filters (results : List (Metadata × Rat))
    (filters : List (String × FVal)) : List (Metadata × Rat) :=
  if filters.isEmpty then results
  else
    match getFilter filters "name_prefix" with
    | some (.str s) =>
        if s == "" then results
        else results.filter (fun r => (r.1.tool_name.getD "").startsWith s)
    | _ => results

/-- Assembly of one response entry from a surviving match: defaulting
metadata reads, parameter decode, and the final score — the normalized
similarity for a semantic query, the constant `1.0` otherwise. -/
def assembleResponse (semantic : Bool) (p : Metadata × Rat) :
    ToolSearchResponse :=
  ⟨p.1.tool_name.getD "", p.1.action_id.getD 0, p.1.toolkit_id.getD 0,
   p.1.description.getD "", parse_tool_parameters p.1.parameters,
   if semantic then convert_distance_to_similarity p.2 else 1⟩

/-- The `query_tools` method: require query text or filters; embed the
query text when present; branch on the truthiness of the embedding (a
semantic query passes the filter only when non-empty, a filter-only query
substitutes a random probe vector of the configured dimension and passes
the filter unconditionally); post-filter; assemble responses in the
index's returned order. -/
def query_tools (embed : String → List Rat) (sample : Nat → Rat)
    (index : IndexQueryFn) (dim : Nat) (req : ToolSearchRequest) :
    Except Err (List ToolSearchResponse) × List Event :=
  if req.query == "" && !(filtersTruthy req.filters) then
    (.error ⟨"Either query or filters must be provided",
             ErrorCode.VALIDATION_ERROR⟩, [])
  else
    let query_embedding : Option (List Rat) :=
      if req.query == "" then none else some (embed req.query)
    let embedEvents : List Event :=
      if req.query == "" then [] else [.embedOne req.query]
    let pf := build_pinecone_filter (req.filters.getD [])
    let semantic : Bool := !(query_embedding.getD []).isEmpty
    let queried : List IndexMatch × List Event :=
      if semantic then
        let filt := if pf.isEmpty then none else some pf
        (index (query_embedding.getD []) req.top_k filt,
         [.indexQuery req.top_k filt])
      else
        (index (npRandomRand sample dim) req.top_k (some pf),
         [.indexQuery req.top_k (some pf)])
    let pairs := queried.1.map (fun m => (m.metadata, m.score))
    let filtered := apply_post_filters pairs (req.filters.getD [])
    (.ok (filtered.map (assembleResponse semantic)), embedEvents ++ queried.2)

/-- C3 counterexample: upserting a toolkit with an empty tool list does
NOT fail with a VALIDATION error — `upsert_toolkit` has no
`except ToolSearchError: raise` clause, so the validation error raised
inside is re-wrapped into `TOOLKIT_UPSERT_ERROR` at the boundary. -/
theorem c3_counterexample_empty_toolkit_wrapped :
    (upsert_toolkit (fun _ => none) (fun _ => none)
        ⟨79, "Pendle", "toolkit description", []⟩).1
      = .error ⟨"Failed to upsert toolkit: Toolkit must contain at least one tool",
                ErrorCode.TOOLKIT_UPSERT_ERROR⟩
  ∧ ErrorCode.TOOLKIT_UPSERT_ERROR ≠ ErrorCode.VALIDATION_ERROR :=
  ⟨rfl, by decide⟩

/-- C3 amended: `upsert_toolkit` on an empty tool list fails, but with
`TOOLKIT_UPSERT_ERROR`; more generally every error raised inside
`upsert_toolkit` or `delete_toolkit` — previously-classified
`ToolSearchError`s included — is re-wrapped into the toolkit-level error
kind (`TOOLKIT_UPSERT_ERROR` / `TOOLKIT_DELETE_ERROR`) with the original
message embedded, unlike the other operations, which pass domain errors
through unchanged. -/
theorem c3_toolkit_boundary_rewraps
    (ef wf : Nat → Option String) (tk tk' : Toolkit)
    (he : tk.tools.isEmpty = true) (hne : tk'.tools.isEmpty = false)
    (e : Err) (evs : List Event)
    (hd : upsert_tools ef wf tk'.tools 100 = (.error e, evs))
    (statsCount : Nat) (sample : Nat → Rat) (dim : Nat)
    (index : IndexQueryFn) (del : Option String) (tid : Int)
    (e2 : Err) (evs2 : List Event)
    (hg : get_toolkit_tools statsCount sample dim index tid = (.error e2, evs2)) :
    upsert_toolkit ef wf tk
      = (.error ⟨"Failed to upsert toolkit: Toolkit must contain at least one tool",
                 ErrorCode.TOOLKIT_UPSERT_ERROR⟩, [])
  ∧ upsert_toolkit ef wf tk'
      = (.error ⟨"Failed to upsert toolkit: " ++ e.message,
                 ErrorCode.TOOLKIT_UPSERT_ERROR⟩, evs)
  ∧ delete_toolkit statsCount sample dim index del tid
      = (.error ⟨"Failed to delete toolkit: " ++ e2.message,
                 ErrorCode.TOOLKIT_DELETE_ERROR⟩, evs2) := by
  refine ⟨?_, ?_, ?_⟩
  · simp [upsert_toolkit, he]
  · simp [upsert_toolkit, hne, hd]
  · simp [delete_toolkit, hg]

/-- Witness for C3's amended theorem: the empty toolkit, a toolkit whose
single tool fails validation inside the delegate, and a negative
toolkit_id whose validation error arises inside `delete_toolkit` — each
re-wrapped into the toolkit-level kind. -/
theorem c3_toolkit_boundary_rewraps_witness :
    upsert_toolkit (fun _ => none) (fun _ => none) ⟨1, "empty", "d", []⟩
      = (.error ⟨"Failed to upsert toolkit: Toolkit must contain at least one tool",
                 ErrorCode.TOOLKIT_UPSERT_ERROR⟩, [])
  ∧ upsert_toolkit (fun _ => none) (fun _ => none)
        ⟨1, "bad", "d", [⟨0, 1, "t", "d", [], "bad"⟩]⟩
      = (.error ⟨"Failed to upsert toolkit: Invalid action_id: 0",
                 ErrorCode.TOOLKIT_UPSERT_ERROR⟩, [])
  ∧ delete_toolkit 0 (fun _ => 0) 3 (fun _ _ _ => []) none (-1)
      = (.error ⟨"Failed to delete toolkit: Invalid toolkit_id",
                 ErrorCode.TOOLKIT_DELETE_ERROR⟩, []) :=
  c3_toolkit_boundary_rewraps (fun _ => none) (fun _ => none)
    ⟨1, "empty", "d", []⟩ ⟨1, "bad", "d", [⟨0, 1, "t", "d", [], "bad"⟩]⟩
    rfl rfl
    ⟨"Invalid action_id: 0", ErrorCode.VALIDATION_ERROR⟩ [] rfl
    0 (fun _ => 0) 3 (fun _ _ _ => []) none (-1)
    ⟨"Invalid toolkit_id", ErrorCode.VALIDATION_ERROR⟩ [] rfl

/-- The 250-tool input of the batch partial-failure scenario
(action_ids 1..250). -/
def c4Tools : List Tool :=
  (List.range 250).map
    (fun i => ⟨(i : Int) + 1, 1, "tool" ++ toString (i + 1), "d", [], "tk"⟩)

/-- The scenario's run of `upsert_tools`: batch size 100, embedding always
succeeds, the index write of the third chunk (chunk index 2) raises. -/
def c4Run : Except Err (List String) × List Event :=
  upsert_tools (fun _ => none)
    (fun k => if k = 2 then some "pinecone write failed" else none)
    c4Tools 100

/-- C4 counterexample: in the 250-tool / batch-100 scenario with the third
chunk's write failing, the first two chunks (exactly 200 records) are
committed and the classified failure is surfaced — but the caller receives
ONLY the error: the 200 committed ids are not reported (the result carries
no id list), refuting the claim's final conjunct. -/
theorem c4_counterexample_ids_not_reported :
    c4Run.1 = .error ⟨"Pinecone batch operation failed: pinecone write failed",
                      ErrorCode.PINECONE_ERROR⟩
  ∧ c4Run.1.toOption = none
  ∧ (committedWrites c4Run.2).length = 2
  ∧ ((committedWrites c4Run.2).map List.length) = [100, 100] := by
  exact ⟨rfl, rfl, by decide, by decide⟩

/-- C4 amended: chunks are processed strictly sequentially in input order;
with the third chunk's write failing, the first two chunks — exactly the
records with ids "1".."200" — remain committed, no further chunk is
attempted (the trace ends at the failing write), and the failure is
surfaced to the caller as a classified error; the committed ids, however,
are not reported to the caller. -/
theorem c4_partial_failure_commits_prior_chunks :
    c4Run.1 = .error ⟨"Pinecone batch operation failed: pinecone write failed",
                      ErrorCode.PINECONE_ERROR⟩
  ∧ committedWrites c4Run.2
      = [(c4Tools.take 100).map vectorId,
         ((c4Tools.drop 100).take 100).map vectorId]
  ∧ c4Run.2
      = [.embedBatch ((c4Tools.take 100).map create_embedding_text),
         .indexWrite ((c4Tools.take 100).map vectorId) true,
         .embedBatch (((c4Tools.drop 100).take 100).map create_embedding_text),
         .indexWrite (((c4Tools.drop 100).take 100).map vectorId) true,
         .embedBatch (((c4Tools.drop 200).take 100).map create_embedding_text),
         .indexWrite (((c4Tools.drop 200).take 100).map vectorId) false]
  ∧ (committedWrites c4Run.2).flatten.length = 200 := by
  exact ⟨rfl, rfl, rfl, by decide⟩

/-- C8: a tool with `action_id ≤ 0` fails both write paths with a
VALIDATION error and an empty effect trace — no embedding-service or
index-service call is issued; `upsert_tools` validates the whole input up
front, so one invalid tool anywhere in the list prevents every chunk from
being embedded or written. -/
theorem c8_upsert_validation_no_calls
    (t : Tool) (ef wf : Option String) (ht : t.action_id ≤ 0) :
    upsert_tool ef wf t
      = (.error ⟨"Invalid action_id", ErrorCode.VALIDATION_ERROR⟩, [])
  ∧ ∀ (tools : List Tool) (efb wfb : Nat → Option String) (bs : Nat)
      (t' : Tool), t' ∈ tools → t'.action_id ≤ 0 →
      ∃ msg, upsert_tools efb wfb tools bs
        = (.error ⟨msg, ErrorCode.VALIDATION_ERROR⟩, []) := by
  constructor
  · simp [upsert_tool, ht]
  · intro tools efb wfb bs t' hmem ht'
    have hfind : (tools.find? (fun x => decide (x.action_id ≤ 0))).isSome :=
      List.find?_isSome.mpr ⟨t', hmem, by simpa using ht'⟩
    obtain ⟨u, hu⟩ := Option.isSome_iff_exists.mp hfind
    have hne : tools.isEmpty = false := by
      cases tools with
      | nil => cases hmem
      | cons a l => rfl
    exact ⟨"Invalid action_id: " ++ toString u.action_id,
           by simp [upsert_tools, hne, hu]⟩

/-- Witness for C8: a tool with `action_id = 0` rejected by `upsert_tool`,
and a two-tool batch whose second tool is invalid rejected by
`upsert_tools` before any call. -/
theorem c8_upsert_validation_no_calls_witness :
    upsert_tool none none ⟨0, 1, "t", "d", [], "tk"⟩
      = (.error ⟨"Invalid action_id", ErrorCode.VALIDATION_ERROR⟩, [])
  ∧ ∃ msg, upsert_tools (fun _ => none) (fun _ => none)
        [⟨5, 1, "ok", "d", [], "tk"⟩, ⟨0, 1, "t", "d", [], "tk"⟩] 100
      = (.error ⟨msg, ErrorCode.VALIDATION_ERROR⟩, []) := by
  have h := c8_upsert_validation_no_calls ⟨0, 1, "t", "d", [], "tk"⟩
    none none (by decide)
  exact ⟨h.1, h.2 [⟨5, 1, "ok", "d", [], "tk"⟩, ⟨0, 1, "t", "d", [], "tk"⟩]
    (fun _ => none) (fun _ => none) 100 ⟨0, 1, "t", "d", [], "tk"⟩
    (by simp) (by decide)⟩

/-- C6: a query request with empty query text and a truthy filter map
takes the filter-only path: the index is probed with the random vector of
the configured embedding dimension, every returned entry's score is
exactly `1`, and the result order is the index's returned order after
post-filtering. -/
theorem c6_filter_only_query_scores
    (embed : String → List Rat) (sample : Nat → Rat) (index : IndexQueryFn)
    (dim : Nat) (req : ToolSearchRequest)
    (hq : req.query = "") (hf : filtersTruthy req.filters = true) :
    query_tools embed sample index dim req
      = (.ok ((apply_post_filters
                ((index (npRandomRand sample dim) req.top_k
                    (some (build_pinecone_filter (req.filters.getD [])))).map
                  (fun m => (m.metadata, m.score)))
                (req.filters.getD [])).map (assembleResponse false)),
         [.indexQuery req.top_k
            (some (build_pinecone_filter (req.filters.getD [])))])
  ∧ (∀ rs evs, query_tools embed sample index dim req = (.ok rs, evs) →
      ∀ r ∈ rs, r.score = 1)
  ∧ (npRandomRand sample dim).length = dim := by
  have hmain : query_tools embed sample index dim req
      = (.ok ((apply_post_filters
                ((index (npRandomRand sample dim) req.top_k
                    (some (build_pinecone_filter (req.filters.getD [])))).map
                  (fun m => (m.metadata, m.score)))
                (req.filters.getD [])).map (assembleResponse false)),
         [.indexQuery req.top_k
            (some (build_pinecone_filter (req.filters.getD [])))]) := by
    simp [query_tools, hq, hf]
  refine ⟨hmain, ?_, by simp [npRandomRand]⟩
  intro rs evs h r hr
  rw [hmain] at h
  have hrs : rs = (apply_post_filters
      ((index (npRandomRand sample dim) req.top_k
          (some (build_pinecone_filter (req.filters.getD [])))).map
        (fun m => (m.metadata, m.score)))
      (req.filters.getD [])).map (assembleResponse false) := by
    have := congrArg Prod.fst h
    simpa using this.symm
  subst hrs
  obtain ⟨p, _, hp⟩ := List.mem_map.mp hr
  rw [← hp]
  rfl

/-- The filter-only request of the C6 witness scenario
(`filters={"toolkit_id":[79]}`, no query text). -/
def c6Req : ToolSearchRequest := ⟨"", 5, some [("toolkit_id", FVal.listInt [79])]⟩

/-- An index whose query endpoint returns the two stored tools of the
scenario, in index order. -/
def c6Index : IndexQueryFn := fun _ _ _ =>
  [⟨⟨some 1001, some 79, some "addLiquidity", none, none, none⟩, 3 / 10⟩,
   ⟨⟨some 1002, some 79, some "removeLiquidity", none, none, none⟩, 1 / 5⟩]

/-- Witness for C6: both tools come back, each with score exactly `1`,
in the index's order, and the probe vector has the configured length. -/
theorem c6_filter_only_query_scores_witness :
    query_tools (fun _ => []) (fun _ => 1 / 2) c6Index 4 c6Req
      = (.ok [⟨"addLiquidity", 1001, 79, "", [], 1⟩,
              ⟨"removeLiquidity", 1002, 79, "", [], 1⟩],
         [.indexQuery 5 (some [("toolkit_id", PVal.inOp [FScalar.i 79])])])
  ∧ (npRandomRand (fun _ => 1 / 2) 4).length = 4 := by
  have h := c6_filter_only_query_scores (fun _ => []) (fun _ => 1 / 2)
    c6Index 4 c6Req rfl rfl
  refine ⟨?_, h.2.2⟩
  rw [h.1]
  rfl

/-- C9: for a positive `toolkit_id`, `get_toolkit_tools` returns `[]`
without issuing a query when the namespace vector count is zero;
otherwise it issues exactly one filtered query requesting
`min(100, vector_count)` results with a `toolkit_id` membership filter;
whenever the index honours `top_k` (returns at most `top_k` matches) the
returned tool list has at most 100 entries, and the operation does not
fail. -/
theorem c9_get_toolkit_tools_capped
    (statsCount : Nat) (sample : Nat → Rat) (dim : Nat) (index : IndexQueryFn)
    (toolkit_id : Int) (hpos : 0 < toolkit_id)
    (hidx : ∀ v k f, (index v k f).length ≤ k) :
    (statsCount = 0 →
      get_toolkit_tools statsCount sample dim index toolkit_id
        = (.ok [], [.statsCall]))
  ∧ (statsCount ≠ 0 →
      get_toolkit_tools statsCount sample dim index toolkit_id
        = (.ok ((index (npRandomRand sample dim) (min 100 statsCount)
                  (some [("toolkit_id", PVal.inOp [FScalar.i toolkit_id])])).map
                (fun m => metadata_to_tool m.metadata)),
           [.statsCall, .indexQuery (min 100 statsCount)
              (some [("toolkit_id", PVal.inOp [FScalar.i toolkit_id])])]))
  ∧ (∀ tools evs,
      get_toolkit_tools statsCount sample dim index toolkit_id
        = (.ok tools, evs) → tools.length ≤ 100) := by
  have hnle : ¬ toolkit_id ≤ 0 := not_le.mpr hpos
  have hbf : build_pinecone_filter [("toolkit_id", FVal.int toolkit_id)]
      = [("toolkit_id", PVal.inOp [FScalar.i toolkit_id])] := by
    have hne : (toolkit_id == 0) = false := by
      simp [hpos.ne']
    simp [build_pinecone_filter, stepKey, stepRequiredParams, getFilter,
          List.find?, FVal.truthy, FVal.toScalars, hne]
  have hz : statsCount = 0 →
      get_toolkit_tools statsCount sample dim index toolkit_id
        = (.ok [], [.statsCall]) := by
    intro h0
    simp [get_toolkit_tools, hnle, h0]
  have hnz : statsCount ≠ 0 →
      get_toolkit_tools statsCount sample dim index toolkit_id
        = (.ok ((index (npRandomRand sample dim) (min 100 statsCount)
                  (some [("toolkit_id", PVal.inOp [FScalar.i toolkit_id])])).map
                (fun m => metadata_to_tool m.metadata)),
           [.statsCall, .indexQuery (min 100 statsCount)
              (some [("toolkit_id", PVal.inOp [FScalar.i toolkit_id])])]) := by
    intro h0
    simp [get_toolkit_tools, hnle, h0, hbf]
  refine ⟨hz, hnz, ?_⟩
  intro tools evs h
  by_cases h0 : statsCount = 0
  · rw [hz h0] at h
    have : tools = [] := by
      have := congrArg Prod.fst h
      simpa using this.symm
    simp [this]
  · rw [hnz h0] at h
    have htools : tools = (index (npRandomRand sample dim) (min 100 statsCount)
        (some [("toolkit_id", PVal.inOp [FScalar.i toolkit_id])])).map
        (fun m => metadata_to_tool m.metadata) := by
      have := congrArg Prod.fst h
      simpa using this.symm
    subst htools
    rw [List.length_map]
    exact le_trans (hidx _ _ _) (min_le_left _ _)

/-- Witness for C9: the 150-stored-tools scenario — the query requests
exactly `min(100, 150) = 100` results with the membership filter, and
the returned list (here empty) respects the 100-entry cap. -/
theorem c9_get_toolkit_tools_capped_witness :
    get_toolkit_tools 150 (fun _ => 0) 2 (fun _ _ _ => []) 79
      = (.ok [], [.statsCall,
                  .indexQuery 100 (some [("toolkit_id", PVal.inOp [FScalar.i 79])])])
  ∧ (∀ tools evs,
      get_toolkit_tools 150 (fun _ => 0) 2 (fun _ _ _ => []) 79
        = (.ok tools, evs) → tools.length ≤ 100) := by
  have h := c9_get_toolkit_tools_capped 150 (fun _ => 0) 2 (fun _ _ _ => [])
    79 (by norm_num) (by intro v k f; simp)
  refine ⟨?_, h.2.2⟩
  have h2 := h.2.1 (by norm_num)
  simpa using h2

/-- C10: the read operations also validate their ids — `get_tool_by_id`
with `action_id ≤ 0` and `get_toolkit_tools` with `toolkit_id ≤ 0` each
fail with a VALIDATION error and an empty effect trace, i.e. before
contacting the index. -/
theorem c10_read_path_validation
    (fetch : String → Option Metadata) (action_id : Int)
    (ha : action_id ≤ 0)
    (statsCount : Nat) (sample : Nat → Rat) (dim : Nat)
    (index : IndexQueryFn) (toolkit_id : Int) (ht : toolkit_id ≤ 0) :
    get_tool_by_id fetch action_id
      = (.error ⟨"Invalid action_id", ErrorCode.VALIDATION_ERROR⟩, [])
  ∧ get_toolkit_tools statsCount sample dim index toolkit_id
      = (.error ⟨"Invalid toolkit_id", ErrorCode.VALIDATION_ERROR⟩, []) := by
  constructor
  · simp [get_tool_by_id, ha]
  · simp [get_toolkit_tools, ht]

/-- Witness for C10: `get_tool_by_id 0` and `get_toolkit_tools (-1)`. -/
theorem c10_read_path_validation_witness :
    get_tool_by_id (fun _ => none) 0
      = (.error ⟨"Invalid action_id", ErrorCode.VALIDATION_ERROR⟩, [])
  ∧ get_toolkit_tools 7 (fun _ => 0) 2 (fun _ _ _ => []) (-1)
      = (.error ⟨"Invalid toolkit_id", ErrorCode.VALIDATION_ERROR⟩, []) :=
  c10_read_path_validation (fun _ => none) 0 (by norm_num)
    7 (fun _ => 0) 2 (fun _ _ _ => []) (-1) (by norm_num)

end ToolsSearch
